import Mathlib

/-!
Verification development for the remote-platformx-pipeline RAG core:
the FAISS-backed vector store (`src/vector_store/vector_store.py`),
the quality scorer (`src/app/quality_scorer.py`) and the RAG pipeline
orchestrator (`src/app/rag_pipeline.py`), shallowly embedded in Lean.
Python floats are modelled as exact rationals; Python exceptions as
`Except` / explicit error values.
-/

attribute [local semireducible] Rat.add Rat.mul Rat.sub Rat.inv

/-- Python-level exceptions and spec-level error kinds that the embedded
code can raise. `dimensionMismatch` stands for the error raised when an
added embedding's length differs from the index dimension (raised in the
source by numpy's array construction or faiss's `add` assertion);
`keyError` for Python `KeyError`; `requestException` for
`requests.exceptions.RequestException`. -/
inductive PyError where
  | dimensionMismatch : PyError
  | keyError : String → PyError
  | requestException : String → PyError
deriving DecidableEq, Repr

/-- Message text used when a caught exception is interpolated into an
f-string (Python `str(e)`); the exact rendering of the exception object is
abstracted as a tag or the stored message. -/
def PyError.msg : PyError → String
  | .dimensionMismatch => "dimension mismatch"
  | .keyError k => k
  | .requestException m => m

/-- Exact squared Euclidean (L2) distance, as computed by
`faiss.IndexFlatL2` on two equal-length vectors. -/
def sqL2 (a b : List ℚ) : ℚ :=
  (List.zipWith (fun x y => (x - y) ^ 2) a b).sum

/-- Lexicographic order on (id, distance) pairs by ascending distance,
ties broken by ascending id. -/
def distIdLe (a b : Int × ℚ) : Prop :=
  a.2 < b.2 ∨ (a.2 = b.2 ∧ a.1 ≤ b.1)

instance : DecidableRel distIdLe := fun a b => by
  unfold distIdLe; infer_instance

instance : IsTotal (Int × ℚ) distIdLe where
  total a b := by
    rcases lt_trichotomy a.2 b.2 with h | h | h
    · exact Or.inl (Or.inl h)
    · rcases le_total a.1 b.1 with h2 | h2
      · exact Or.inl (Or.inr ⟨h, h2⟩)
      · exact Or.inr (Or.inr ⟨h.symm, h2⟩)
    · exact Or.inr (Or.inl h)

instance : IsTrans (Int × ℚ) distIdLe where
  trans a b c hab hbc := by
    rcases hab with h1 | ⟨h1, h1'⟩ <;> rcases hbc with h2 | ⟨h2, h2'⟩
    · exact Or.inl (h1.trans h2)
    · exact Or.inl (h2 ▸ h1)
    · exact Or.inl (h1 ▸ h2)
    · exact Or.inr ⟨h1.trans h2, h1'.trans h2'⟩

/-- Modelled from the spec: `faiss.IndexFlatL2`, the only faiss structure
the repository uses (faiss itself is an external dependency, absent from
the repository's sources).  It stores the index dimension `d` and the
added vectors in insertion order; positions are the faiss ids. -/
structure FaissIndexFlatL2 where
  d : Nat
  vectors : List (List ℚ)
deriving DecidableEq, Repr

/-- Modelled from the spec: `faiss.IndexFlatL2.search` — exact squared-L2
distances over all stored vectors, the `k` best returned sorted by
ascending distance with ties broken by ascending id, padded with id `-1`
entries when fewer than `k` vectors are stored. -/
def FaissIndexFlatL2.search (idx : FaissIndexFlatL2) (q : List ℚ) (k : Nat) :
    List (Int × ℚ) :=
  let pairs := (List.range idx.vectors.length).map
    (fun i => (Int.ofNat i, sqL2 q (idx.vectors.getD i [])))
  let sorted := List.insertionSort distIdLe pairs
  sorted.take k ++ List.replicate (k - idx.vectors.length) ((-1 : Int), 0)

/-- Python-dict insert on an insertion-ordered association list:
replace the value at an existing key, else append at the end
(`self.document_map[doc_id] = text`). -/
def dictInsert (m : List (Nat × String)) (k : Nat) (v : String) :
    List (Nat × String) :=
  match m with
  | [] => [(k, v)]
  | (k', v') :: rest =>
      if k' = k then (k, v) :: rest else (k', v') :: dictInsert rest k v

/-- `FAISSStore` from `src/vector_store/vector_store.py`: dimension,
faiss index, `document_map` (a Python dict, modelled as an
insertion-ordered association list) and the `current_id` counter. -/
structure FAISSStore where
  dimension : Nat
  index : FaissIndexFlatL2
  document_map : List (Nat × String)
  current_id : Nat
deriving DecidableEq, Repr

namespace FAISSStore

/-- `FAISSStore.__init__`: dimension defaults to 1536, fresh empty
`IndexFlatL2(dimension)`, empty document map, counter 0. -/
def init (dimension : Nat := 1536) : FAISSStore :=
  { dimension := dimension
    index := { d := dimension, vectors := [] }
    document_map := []
    current_id := 0 }

/-- `FAISSStore.add_texts`.  Returns the Python result (doc ids, or the
exception raised) together with the store state after the call (the
Python method mutates `self`; on an exception `self` is unchanged).
The early return hands back `[]` when either list is empty; otherwise a
mismatched embedding length makes numpy/faiss raise before any mutation. -/
def add_texts (s : FAISSStore) (texts : List String)
    (embeddings : List (List ℚ)) : Except PyError (List Nat) × FAISSStore :=
  if texts.isEmpty || embeddings.isEmpty then (.ok [], s)
  else if embeddings.any (fun e => e.length ≠ s.index.d) then
    (.error .dimensionMismatch, s)
  else
    let doc_ids := (List.range texts.length).map (fun i => s.current_id + i)
    let s' : FAISSStore :=
      { s with
        index := { s.index with vectors := s.index.vectors ++ embeddings }
        document_map :=
          (doc_ids.zip texts).foldl (fun m p => dictInsert m p.1 p.2)
            s.document_map
        current_id := s.current_id + texts.length }
    (.ok doc_ids, s')

/-- The result-collection loop of `similarity_search`: skip faiss padding
entries (`idx == -1`), look every other id up in `document_map`
(`self.document_map[int(idx)]` raises `KeyError` when absent). -/
def collectResults (dmap : List (Nat × String)) :
    List (Int × ℚ) → Except PyError (List (Int × String × ℚ))
  | [] => .ok []
  | (i, dist) :: rest =>
      if i = -1 then collectResults dmap rest
      else
        match dmap.lookup i.toNat with
        | none => .error (.keyError (toString i.toNat))
        | some t =>
            match collectResults dmap rest with
            | .ok l => .ok ((i, t, dist) :: l)
            | .error e => .error e

/-- `FAISSStore.similarity_search`: faiss asserts the query dimension
matches the index dimension, then the top-`k` (id, distance) pairs are
mapped to (id, text, distance) triples through `document_map`. -/
def similarity_search (s : FAISSStore) (query_embedding : List ℚ)
    (k : Nat := 5) : Except PyError (List (Int × String × ℚ)) :=
  if query_embedding.length ≠ s.index.d then .error .dimensionMismatch
  else collectResults s.document_map (s.index.search query_embedding k)

/-- The on-disk snapshot written by `FAISSStore.save`: the faiss index
blob (`index.faiss`) plus the pickled `document_map` and `current_id`
(`docstore.pkl`), modelled as the serialized values themselves. -/
structure Snapshot where
  index : FaissIndexFlatL2
  document_map : List (Nat × String)
  current_id : Nat
deriving DecidableEq, Repr

/-- `FAISSStore.save`: serializes the index, the document map and the id
counter. -/
def save (s : FAISSStore) : Snapshot :=
  { index := s.index
    document_map := s.document_map
    current_id := s.current_id }

/-- `FAISSStore.load`: builds a default-constructed store (`cls()`), then
overwrites its index, document map and counter with the snapshot's
contents.  No field is validated; `dimension` keeps the constructor
default. -/
def load (snap : Snapshot) : FAISSStore :=
  let store := init
  { store with
    index := snap.index
    document_map := snap.document_map
    current_id := snap.current_id }

end FAISSStore

/-! ### Python string primitives -/

/-- ASCII whitespace recognized by Python's `str.strip` / `str.split` /
regex `\s` (the repository's strings are ASCII). -/
def isPyWs (c : Char) : Bool :=
  c = ' ' || c = '\t' || c = '\n' || c = '\r' ||
    c = Char.ofNat 11 || c = Char.ofNat 12

/-- Python `str.strip()`. -/
def pyStrip (s : String) : String :=
  ⟨((s.data.dropWhile isPyWs).reverse.dropWhile isPyWs).reverse⟩

/-- Python `str.lower()` (ASCII). -/
def pyLower (s : String) : String :=
  ⟨s.data.map Char.toLower⟩

/-- Regex `\w`: word character (ASCII letter, digit, or underscore). -/
def isWordChar (c : Char) : Bool :=
  c.isAlpha || c.isDigit || c = '_'

/-- Python `str.split()` (no separator): split on whitespace runs,
dropping empty fields. `acc` holds the current in-progress word
reversed. -/
def pySplitGo (acc : List Char) : List Char → List (List Char)
  | [] => if acc.isEmpty then [] else [acc.reverse]
  | c :: rest =>
      if isPyWs c then
        if acc.isEmpty then pySplitGo [] rest
        else acc.reverse :: pySplitGo [] rest
      else pySplitGo (c :: acc) rest

/-- Fields of Python `s.split()`. -/
def pySplitWs (s : String) : List (List Char) :=
  pySplitGo [] s.data

/-- Word count `len(s.split())`. -/
def pyWordCount (s : String) : Nat :=
  (pySplitWs s).length

/-- Python `s.split('.')` (keeps empty fields). -/
def splitOnDotGo (acc : List Char) : List Char → List (List Char)
  | [] => [acc.reverse]
  | c :: rest =>
      if c = '.' then acc.reverse :: splitOnDotGo [] rest
      else splitOnDotGo (c :: acc) rest

/-- `s.split('.')` as character lists. -/
def pySplitDot (s : String) : List (List Char) :=
  splitOnDotGo [] s.data

/-- Does `pre` occur at the head of `s`? -/
def startsWithSeq : List Char → List Char → Bool
  | [], _ => true
  | _ :: _, [] => false
  | n :: ns, c :: cs => n = c && startsWithSeq ns cs

/-- Python substring containment `needle in hay`. -/
def hasSubSeq (needle : List Char) : List Char → Bool
  | [] => needle.isEmpty
  | c :: rest => startsWithSeq needle (c :: rest) || hasSubSeq needle rest

/-- Try to match the literal `lit` at the head of `s`; on success return
the remaining characters. -/
def matchLit : List Char → List Char → Option (List Char)
  | [], s => some s
  | _ :: _, [] => none
  | p :: ps, c :: cs => if p = c then matchLit ps cs else none

/-- At the current position (with `prevWord` recording whether the
previous character was a word character), try the regex alternation
`\b(a1|a2|...)\b` the way Python's `re` does: alternatives in order, the
leading `\b` requires the previous character to be a non-word one, the
trailing `\b` requires the next character after the match to be non-word
(or the end).  Returns the remaining characters after the match. -/
def tryWordAlts (alts : List String) (s : List Char) (prevWord : Bool) :
    Option (List Char) :=
  if prevWord then none
  else
    alts.findSome? fun alt =>
      match matchLit alt.data s with
      | none => none
      | some rest =>
          match rest with
          | [] => some rest
          | c :: _ => if isWordChar c then none else some rest

/-- Count the non-overlapping matches of `\b(a1|a2|...)\b` scanning left
to right (Python `len(re.findall(...))`).  `fuel` bounds the recursion;
each step consumes at least one character, so `fuel = s.length`
suffices. -/
def countWordAltsGo (alts : List String) : Nat → List Char → Bool → Nat
  | 0, _, _ => 0
  | _ + 1, [], _ => 0
  | fuel + 1, c :: rest, prevWord =>
      match tryWordAlts alts (c :: rest) prevWord with
      | some remaining => 1 + countWordAltsGo alts fuel remaining true
      | none => countWordAltsGo alts fuel rest (isWordChar c)

/-- `len(re.findall(r'\b(a1|a2|...)\b', s))` for literal word
alternatives. -/
def countWordAlts (alts : List String) (s : String) : Nat :=
  countWordAltsGo alts s.data.length s.data false

/-- `re.search(r'\b(a1|a2|...)\b', s)` succeeds. -/
def existsWordAlt (alts : List String) (s : String) : Bool :=
  countWordAlts alts s ≠ 0

/-- Count the characters at the head of `s` satisfying `p`. -/
def countLeading (p : Char → Bool) : List Char → Nat
  | [] => 0
  | c :: rest => if p c then 1 + countLeading p rest else 0

/-- `len(re.findall(r'\.{3,}', s))`: number of maximal runs of at least
three consecutive dots. -/
def countDotRunsGo : Nat → List Char → Nat
  | 0, _ => 0
  | _ + 1, [] => 0
  | fuel + 1, c :: rest =>
      if c = '.' then
        let run := 1 + countLeading (· = '.') rest
        let remaining := rest.dropWhile (· = '.')
        (if 3 ≤ run then 1 else 0) + countDotRunsGo fuel remaining
      else countDotRunsGo fuel rest

/-- Dot-run count of a string. -/
def countDotRuns (s : String) : Nat :=
  countDotRunsGo s.data.length s.data

/-- Try the regex `\b(is|are|was|were)\s+\w+ed\b` at the current
position: a whole-word auxiliary verb, at least one whitespace
character, then a whole word of length ≥ 3 ending in "ed". -/
def tryPassiveAt (s : List Char) (prevWord : Bool) : Option (List Char) :=
  if prevWord then none
  else
    (["is", "are", "was", "were"] : List String).findSome? fun v =>
      match matchLit v.data s with
      | none => none
      | some rest =>
          let ws := countLeading isPyWs rest
          if ws = 0 then none
          else
            let afterWs := rest.drop ws
            let run := afterWs.takeWhile isWordChar
            let remaining := afterWs.dropWhile isWordChar
            if 3 ≤ run.length &&
                startsWithSeq ['d', 'e'] run.reverse then
              some remaining
            else none

/-- Count non-overlapping matches of the passive-voice regex. -/
def countPassiveGo : Nat → List Char → Bool → Nat
  | 0, _, _ => 0
  | _ + 1, [], _ => 0
  | fuel + 1, c :: rest, prevWord =>
      match tryPassiveAt (c :: rest) prevWord with
      | some remaining => 1 + countPassiveGo fuel remaining true
      | none => countPassiveGo fuel rest (isWordChar c)

/-- `len(re.findall(r'\b(is|are|was|were)\s+\w+ed\b', s))`. -/
def countPassive (s : String) : Nat :=
  countPassiveGo s.data.length s.data false

/-- Count occurrences of a character (`len(re.findall(r'\?', s))`). -/
def countChar (c : Char) (s : String) : Nat :=
  s.data.countP (· = c)

/-- The maximal `\w+` runs of a string, in order
(`re.findall(r'\b\w+\b', s)`). -/
def wordRunsGo (acc : List Char) : List Char → List (List Char)
  | [] => if acc.isEmpty then [] else [acc.reverse]
  | c :: rest =>
      if isWordChar c then wordRunsGo (c :: acc) rest
      else if acc.isEmpty then wordRunsGo [] rest
      else acc.reverse :: wordRunsGo [] rest

/-- `re.findall(r'\b\w+\b', s)` as character lists. -/
def wordRuns (s : String) : List (List Char) :=
  wordRunsGo [] s.data

/-- The membership of the bullet-regex character class `[-â€¢\d+]`
(the source file literally contains the three mojibake characters). -/
def isBulletChar (c : Char) : Bool :=
  c = '-' || c = 'â' || c = '€' || c = '¢' || c.isDigit || c = '+'

/-- Does `re.search(r'^\s*[-â€¢\d+]\s', s, re.MULTILINE)` match starting
at this suffix (which begins at the start of the string or right after a
newline)?  `\s*` greedily skips whitespace (backtracking can never help:
the class and `\s` are disjoint), then one class character, then one
whitespace character. -/
def bulletAtLineStart (s : List Char) : Bool :=
  match s.dropWhile isPyWs with
  | c :: c' :: _ => isBulletChar c && isPyWs c'
  | _ => false

/-- Scan all MULTILINE `^` anchor positions. -/
def bulletSearchGo : List Char → Bool
  | [] => false
  | c :: rest =>
      (c = '\n' && bulletAtLineStart rest) || bulletSearchGo rest

/-- `re.search(r'^\s*[-â€¢\d+]\s', s, re.MULTILINE)` succeeds. -/
def bulletSearch (s : String) : Bool :=
  bulletAtLineStart s.data || bulletSearchGo s.data

/-! ### Decimal rounding -/

/-- Round to the nearest integer, ties to even (the rounding of Python's
`round` on an exactly representable tie).  The floor is computed as the
flooring division of the numerator by the (positive) denominator so that
the definition evaluates by kernel reduction. -/
def roundHalfEven (q : ℚ) : ℤ :=
  let f := Int.fdiv q.num q.den
  let r := q - f
  if r < 1 / 2 then f
  else if 1 / 2 < r then f + 1
  else if f % 2 = 0 then f else f + 1

/-- Python `round(x, 1)` on the exact-rational model. -/
def round1 (q : ℚ) : ℚ :=
  (roundHalfEven (10 * q) : ℚ) / 10

/-! ### Quality scorer (`src/app/quality_scorer.py`) -/

/-- `QualityScore` dataclass. -/
structure QualityScore where
  overall_score : ℚ
  completeness : ℚ
  clarity : ℚ
  professionalism : ℚ
  relevance : ℚ
  feedback : List String
  status : String
deriving DecidableEq, Repr

namespace RFPQualityScorer

/-- `professional_phrases['positive']`. -/
def positive_phrases : List String :=
  ["demonstrated experience", "proven track record", "comprehensive approach",
   "industry best practices", "established methodology", "quality assurance",
   "client satisfaction", "measurable results", "continuous improvement",
   "subject matter expertise", "strategic partnership", "value proposition"]

/-- `professional_phrases['negative']`. -/
def negative_phrases : List String :=
  ["maybe", "might", "probably", "i think", "in my opinion",
   "not sure", "could be", "sort of", "kind of"]

/-- `clarity_patterns['good']`: the three word-alternation regexes
(sequential indicators, logical connectors, clarifying phrases). -/
def clarity_good_patterns : List (List String) :=
  [["first", "second", "third", "finally"],
   ["however", "therefore", "furthermore", "additionally"],
   ["specifically", "for example", "such as"]]

/-- The word-alternation parts of `clarity_patterns['poor']` (filler
words and vague terms; the multiple-dots regex is counted by
`countDotRuns`). -/
def clarity_poor_words : List (List String) :=
  [["uh", "um", "er"], ["thing", "stuff", "whatever"]]

/-- The answer-indicator regex of `_score_completeness`. -/
def answer_indicator_words : List String :=
  ["yes", "no", "we will", "we can", "we provide", "our approach", "we have"]

/-- The stop-word set removed in `_score_relevance`. -/
def stop_words : List String :=
  ["the", "a", "an", "and", "or", "but", "in", "on", "at", "to", "for",
   "of", "with", "by", "is", "are", "was", "were", "be", "been", "being",
   "have", "has", "had", "do", "does", "did", "will", "would", "could",
   "should"]

/-- `RFPQualityScorer._score_completeness`. -/
def score_completeness (requirement response : String) : ℚ :=
  if (pyStrip response).data.length < 50 then 30
  else
    let score : ℚ := 60
    let req_words := pyWordCount requirement
    let resp_words := pyWordCount response
    let score := if (resp_words : ℚ) ≥ (req_words : ℚ) * (1 / 2) then score + 15
      else score
    let score := if resp_words ≥ req_words then score + 10 else score
    let req_questions := countChar '?' requirement
    let score :=
      if 0 < req_questions then
        let answer_indicators :=
          countWordAlts answer_indicator_words (pyLower response)
        if answer_indicators ≥ req_questions then score + 15 else score
      else score + 15
    min score 100

/-- The per-sentence word counts used for the average sentence length
(`[len(s.split()) for s in sentences if s.strip()]`). -/
def sentenceWordCounts (response : String) : List Nat :=
  ((pySplitDot response).filter
      (fun sent => !((sent.dropWhile isPyWs).isEmpty))).map
    (fun sent => (pySplitGo [] sent).length)

/-- The average-sentence-length adjustment of `_score_clarity`:
`np.mean` of an empty list is NaN, whose comparisons are all false, so
no adjustment applies. -/
def sentenceLengthAdj (response : String) : ℚ :=
  match sentenceWordCounts response with
  | [] => 0
  | c :: cs =>
      let counts := c :: cs
      let avg : ℚ := ((counts.map (Nat.cast)).sum : ℚ) / counts.length
      if 10 ≤ avg ∧ avg ≤ 25 then 10
      else if 40 < avg then -15
      else 0

/-- `RFPQualityScorer._score_clarity`. -/
def score_clarity (response : String) : ℚ :=
  let low := pyLower response
  let score : ℚ := 70
  let score := clarity_good_patterns.foldl
    (fun sc pat => sc + min ((countWordAlts pat low : ℚ) * 5) 15) score
  let score := score - (countWordAlts ["uh", "um", "er"] low : ℚ) * 10
  let score := score - (countDotRuns low : ℚ) * 10
  let score := score - (countWordAlts ["thing", "stuff", "whatever"] low : ℚ) * 10
  let score := score + sentenceLengthAdj response
  let score := if bulletSearch response then score + 10 else score
  max (min score 100) 0

/-- `response[0].isupper()`; total on the empty string (the empty case
is unreachable: `score_response` returns early on empty responses). -/
def headIsUpper (response : String) : Bool :=
  match response.data with
  | [] => false
  | c :: _ => c.isUpper

/-- `RFPQualityScorer._score_professionalism`. -/
def score_professionalism (response : String) : ℚ :=
  let low := pyLower response
  let score : ℚ := 70
  let score := score +
    3 * (positive_phrases.countP (fun p => hasSubSeq p.data low.data) : ℚ)
  let score := score -
    10 * (negative_phrases.countP (fun p => hasSubSeq p.data low.data) : ℚ)
  let score := if existsWordAlt ["I", "we"] response then score + 5 else score
  let passive_indicators := countPassive response
  let total_words := pyWordCount response
  let score :=
    if 0 < total_words ∧
        (3 : ℚ) / 10 < (passive_indicators : ℚ) / (total_words : ℚ) then
      score - 15
    else score
  let score := if headIsUpper response then score + 5 else score
  max (min score 100) 0

/-- `RFPQualityScorer._score_relevance`. -/
def score_relevance (requirement response : String) : ℚ :=
  let stop : List (List Char) := stop_words.map String.data
  let req_words :=
    ((wordRuns (pyLower requirement)).dedup).filter (fun w => w ∉ stop)
  let resp_words :=
    ((wordRuns (pyLower response)).dedup).filter (fun w => w ∉ stop)
  if req_words.isEmpty then 70
  else
    let overlap := (req_words.filter (fun w => w ∈ resp_words)).length
    let overlap_ratio : ℚ := (overlap : ℚ) / (req_words.length : ℚ)
    let base_score : ℚ := 50 + overlap_ratio * 50
    let technical_terms :=
      (req_words.filter (fun w => 6 < w.length)).length
    let addressed_technical :=
      ((req_words.filter (fun w => w ∈ resp_words)).filter
        (fun w => 6 < w.length)).length
    let base_score :=
      if 0 < technical_terms then
        base_score + (addressed_technical : ℚ) / (technical_terms : ℚ) * 20
      else base_score
    min base_score 100

/-- `RFPQualityScorer._generate_feedback`. -/
def generate_feedback (completeness clarity professionalism relevance : ℚ)
    (response : String) : List String :=
  let feedback : List String := []
  let feedback := if completeness < 70 then
    feedback ++ ["Response seems incomplete. Consider providing more detailed information."]
    else feedback
  let feedback := if clarity < 70 then
    feedback ++ ["Response could be clearer. Try using bullet points or numbered lists."]
    else feedback
  let feedback := if professionalism < 70 then
    feedback ++ ["Consider using more professional business language."]
    else feedback
  let feedback := if relevance < 70 then
    feedback ++ ["Response doesn't fully address the requirement. Include more specific details."]
    else feedback
  let feedback := if pyWordCount response < 30 then
    feedback ++ ["Response is too brief. Provide more comprehensive information."]
    else feedback
  let feedback :=
    if 80 ≤ completeness ∧ 80 ≤ clarity ∧ 80 ≤ professionalism ∧
        80 ≤ relevance then
      feedback ++ ["Excellent response! Ready for submission."]
    else if 70 ≤ completeness ∧ 70 ≤ clarity ∧ 70 ≤ professionalism ∧
        70 ≤ relevance then
      feedback ++ ["Good response with minor room for improvement."]
    else feedback
  if feedback.isEmpty then ["Response meets basic quality standards."]
  else feedback

/-- `RFPQualityScorer._determine_status`. -/
def determine_status (overall_score : ℚ) : String :=
  if 85 ≤ overall_score then "Excellent"
  else if 75 ≤ overall_score then "Good"
  else if 60 ≤ overall_score then "Needs Review"
  else "Poor"

/-- `RFPQualityScorer.score_response`. -/
def score_response (requirement response : String) : QualityScore :=
  if response = "" ∨ pyStrip response = "" then
    { overall_score := 0
      completeness := 0
      clarity := 0
      professionalism := 0
      relevance := 0
      feedback := ["Response is empty or missing"]
      status := "Poor" }
  else
    let completeness := score_completeness requirement response
    let clarity := score_clarity response
    let professionalism := score_professionalism response
    let relevance := score_relevance requirement response
    let overall := completeness * (3 / 10) + clarity * (1 / 4) +
      professionalism * (1 / 4) + relevance * (1 / 5)
    let feedback := generate_feedback completeness clarity professionalism
      relevance response
    let status := determine_status overall
    { overall_score := round1 overall
      completeness := round1 completeness
      clarity := round1 clarity
      professionalism := round1 professionalism
      relevance := round1 relevance
      feedback := feedback
      status := status }

end RFPQualityScorer

/-! ### RAG pipeline orchestrator (`src/app/rag_pipeline.py`) -/

namespace RAGPipeline

/-- Outcome of the `requests.post` call to the generation backend for a
single request, as observed by `generate_answer`: a raised
`requests.exceptions.RequestException` (connection error or timeout), an
HTTP error status (which `raise_for_status` turns into an `HTTPError`,
itself a `RequestException`), or a parsed JSON object (field map). -/
inductive BackendOutcome where
  | networkError (msg : String)
  | timeout (msg : String)
  | httpStatusError (msg : String)
  | success (json : List (String × String))
deriving DecidableEq, Repr

/-- The body of the `try:` block in `RAGPipeline.generate_answer`: post
the request, `raise_for_status`, read `json()["response"]` (a missing
field raises `KeyError`), then clean the text with
`_humanize_response`.  The cleanup function is passed as a parameter
(`humanize`): its regex pipeline only touches the success path, which no
claim examines. -/
def generate_answer_body (humanize : String → String)
    (outcome : BackendOutcome) : Except PyError String :=
  match outcome with
  | .networkError m => .error (.requestException m)
  | .timeout m => .error (.requestException m)
  | .httpStatusError m => .error (.requestException m)
  | .success json =>
      match json.lookup "response" with
      | none => .error (.keyError "response")
      | some raw => .ok (humanize raw)

/-- `RAGPipeline.generate_answer`: the `except` clauses convert a
`RequestException` into the literal answer string
`"Error connecting to Ollama: {e}"` and a `KeyError` into
`"Error: Invalid response from Ollama"`; any other outcome is returned
as-is.  The result is `Except` so that an uncaught exception would be
visible as `.error`. -/
def generate_answer (humanize : String → String) (query context : String)
    (outcome : BackendOutcome) : Except PyError String :=
  match generate_answer_body humanize outcome with
  | .ok answer => .ok answer
  | .error (.requestException m) => .ok ("Error connecting to Ollama: " ++ m)
  | .error (.keyError _) => .ok "Error: Invalid response from Ollama"
  | .error e => .error e

/-- The fields of the dict returned by `RAGPipeline.ask` that batch
processing reads. -/
structure AskResult where
  answer : String
deriving DecidableEq, Repr

/-- One entry of the list built by
`RAGPipeline.process_requirements_batch`. -/
structure BatchItem where
  requirement : String
  response : String
  status : String
deriving DecidableEq, Repr

/-- `RAGPipeline.process_requirements_batch`.  `ask` is the per-item
call `self.ask(requirement, top_k)`, which may raise (modelled as
`Except`); the loop's `try/except` appends a `"success"` item from the
result dict's `"answer"` or an `"error"` item carrying
`"Error processing requirement: {str(e)}"`, then continues with the next
requirement. -/
def process_requirements_batch (ask : String → Except PyError AskResult)
    (requirements : List String) : List BatchItem :=
  requirements.map fun requirement =>
    match ask requirement with
    | .ok result =>
        { requirement := requirement
          response := result.answer
          status := "success" }
    | .error e =>
        { requirement := requirement
          response := "Error processing requirement: " ++ e.msg
          status := "error" }

end RAGPipeline

/-! ### Shared concrete examples -/

/-- A small store with three documents in two dimensions, built through
`add_texts` (mirrors `test_vector_store.py`). -/
def exStore : FAISSStore :=
  (FAISSStore.add_texts (FAISSStore.init 2) ["a", "b", "c"]
    [[0, 0], [1, 1], [3, 3]]).2

/-- A concrete `ask` behaviour that fails on the requirement `"b"` and
succeeds elsewhere. -/
def askEx : String → Except PyError RAGPipeline.AskResult :=
  fun r => if r = "b" then .error (.requestException "down") else .ok ⟨"fine"⟩

/-- Formalised from the claim's words (C9): clarity scoring with the
good-pattern bonus of 5 points per occurrence capped at 15 points in
total across the three pattern groups, every other term exactly as in
the source — to be compared with `RFPQualityScorer.score_clarity`,
which caps each pattern group separately. -/
def clarityTotalCap15 (response : String) : ℚ :=
  let low := pyLower response
  let totalGood :=
    countWordAlts ["first", "second", "third", "finally"] low +
    countWordAlts ["however", "therefore", "furthermore", "additionally"] low +
    countWordAlts ["specifically", "for example", "such as"] low
  let score : ℚ := 70 + min ((totalGood : ℚ) * 5) 15
  let score := score - (countWordAlts ["uh", "um", "er"] low : ℚ) * 10
  let score := score - (countDotRuns low : ℚ) * 10
  let score := score -
    (countWordAlts ["thing", "stuff", "whatever"] low : ℚ) * 10
  let score := score + RFPQualityScorer.sentenceLengthAdj response
  let score := if bulletSearch response then score + 10 else score
  max (min score 100) 0

/-! ### Helper lemmas -/

theorem collectResults_append_pad (dmap : List (Nat × String))
    (xs : List (Int × ℚ)) (m : Nat) (c : ℚ) :
    FAISSStore.collectResults dmap (xs ++ List.replicate m ((-1 : Int), c)) =
      FAISSStore.collectResults dmap xs := by
  induction xs with
  | nil =>
      simp only [List.nil_append]
      induction m with
      | zero => rfl
      | succ m ih =>
          simpa [List.replicate_succ, FAISSStore.collectResults] using ih
  | cons p rest ih =>
      obtain ⟨i, d⟩ := p
      simp only [List.cons_append, FAISSStore.collectResults, List.append_eq, ih]

theorem collectResults_ok (dmap : List (Nat × String)) (xs : List (Int × ℚ))
    (h : ∀ p ∈ xs, ∃ i : Nat, p.1 = Int.ofNat i ∧
      ∃ t, dmap.lookup i = some t) :
    ∃ l, FAISSStore.collectResults dmap xs = .ok l ∧
      l.map (fun x => (x.1, x.2.2)) = xs ∧
      ∀ x ∈ l, dmap.lookup x.1.toNat = some x.2.1 := by
  induction xs with
  | nil => exact ⟨[], rfl, rfl, by simp⟩
  | cons p rest ih =>
      obtain ⟨i, d⟩ := p
      obtain ⟨j, hj, t, ht⟩ := h (i, d) (List.mem_cons_self _ _)
      obtain ⟨l, hl, hproj, hmem⟩ :=
        ih (fun p hp => h p (List.mem_cons_of_mem _ hp))
      have hj' : i = (j : ℤ) := hj
      have hne : i ≠ -1 := by omega
      have htn : i.toNat = j := by omega
      refine ⟨(i, t, d) :: l, ?_, ?_, ?_⟩
      · simp only [FAISSStore.collectResults, if_neg hne, htn, ht, hl]
      · simpa using hproj
      · intro x hx
        rcases List.mem_cons.mp hx with hx | hx
        · subst hx; simpa [htn] using ht
        · exact hmem x hx

/-! ### Claim theorems -/

/-- C1: for every store state, after `save(dir)` followed by
`load(dir)`, the loaded store's `similarity_search(q, k)` returns output
identical to the pre-save store's `similarity_search(q, k)`, for every
query vector `q` and every `k` not exceeding the number of stored
documents. -/
theorem save_load_round_trip_search (s : FAISSStore) (q : List ℚ) (k : Nat)
    (hk : k ≤ s.document_map.length) :
    (FAISSStore.load (FAISSStore.save s)).similarity_search q k =
      s.similarity_search q k := rfl

/-- Witness for C1 at a concrete three-document store. -/
theorem save_load_round_trip_search_witness :
    1 ≤ exStore.document_map.length ∧
      (FAISSStore.load (FAISSStore.save exStore)).similarity_search [1, 0] 1 =
        exStore.similarity_search [1, 0] 1 :=
  ⟨by decide, save_load_round_trip_search exStore [1, 0] 1 (by decide)⟩

/-- C2 (amended): for every call to `add_texts` with non-empty `texts`
and non-empty `embeddings` where some embedding's length differs from
the index dimension, the operation fails with the dimension-mismatch
error and leaves the store unchanged: the returned state is the pre-call
store, so the document count, document map and id counter are
untouched. -/
theorem add_texts_dimension_mismatch_atomic (s : FAISSStore)
    (texts : List String) (embeddings : List (List ℚ))
    (ht : texts ≠ []) (he : embeddings ≠ [])
    (hbad : ∃ e ∈ embeddings, e.length ≠ s.index.d) :
    FAISSStore.add_texts s texts embeddings =
      (.error .dimensionMismatch, s) := by
  unfold FAISSStore.add_texts
  rw [if_neg, if_pos]
  · exact List.any_eq_true.mpr (by simpa using hbad)
  · simp [List.isEmpty_iff, ht, he]

/-- Witness for C2 at a concrete mismatched add. -/
theorem add_texts_dimension_mismatch_atomic_witness :
    FAISSStore.add_texts (FAISSStore.init 2) ["a"] [[1, 2, 3]] =
      (.error .dimensionMismatch, FAISSStore.init 2) :=
  add_texts_dimension_mismatch_atomic (FAISSStore.init 2) ["a"] [[1, 2, 3]]
    (by decide) (by decide) ⟨[1, 2, 3], by decide, by decide⟩

/-- Counterexample to C2 as stated: when `texts` is empty, a call whose
`embeddings` contain a vector of the wrong length does not fail — the
early return yields `[]` successfully (the store is unchanged, but no
`DimensionMismatch` is reported). -/
theorem add_texts_dimension_mismatch_counterexample :
    (∃ e ∈ [[(1 : ℚ)]], e.length ≠ (FAISSStore.init).index.d) ∧
      FAISSStore.add_texts FAISSStore.init [] [[(1 : ℚ)]] =
        (.ok [], FAISSStore.init) :=
  ⟨⟨[1], by decide, by decide⟩, rfl⟩

/-- C8 (amended): `load` restores the index, the document map and the id
counter exactly as stored, performing no consistency check: it returns
successfully even when the index vector count differs from the number of
document-map entries, and no `StorageError`-style failure exists. -/
theorem load_restores_without_validation (snap : FAISSStore.Snapshot) :
    (FAISSStore.load snap).index = snap.index ∧
      (FAISSStore.load snap).document_map = snap.document_map ∧
      (FAISSStore.load snap).current_id = snap.current_id :=
  ⟨rfl, rfl, rfl⟩

/-- Counterexample to C8 as stated: a snapshot whose index holds one
vector but whose document map is empty loads successfully into a store
with `index vector count = 1 ≠ 0 = len(doc map)`. -/
theorem load_invariant_counterexample :
    (FAISSStore.load ⟨⟨3, [[1, 2, 3]]⟩, [], 0⟩).index.vectors.length = 1 ∧
      (FAISSStore.load ⟨⟨3, [[1, 2, 3]]⟩, [], 0⟩).document_map.length = 0 := by
  decide

/-- C3: for every consistent store and every dimension-correct query
`q` and every `k`, `similarity_search(q, k)` returns (id, text,
distance) triples whose distances are the exact squared-Euclidean
distances to the stored vectors and whose texts are the ids' mapped
documents, sorted by ascending distance with ties broken by ascending
id, containing `min k |documents|` entries (so at most `k`, fewer when
the store holds fewer than `k` documents, and the empty list — not an
error — when the store holds zero documents). -/
theorem similarity_search_exact_sorted (s : FAISSStore) (q : List ℚ) (k : Nat)
    (hq : q.length = s.index.d)
    (hcount : s.index.vectors.length = s.document_map.length)
    (hmap : ∀ i, i < s.index.vectors.length →
      (s.document_map.lookup i).isSome = true) :
    ∃ l, s.similarity_search q k = .ok l ∧
      l.length = min k s.document_map.length ∧
      List.Pairwise
        (fun a b : Int × String × ℚ =>
          a.2.2 < b.2.2 ∨ (a.2.2 = b.2.2 ∧ a.1 ≤ b.1)) l ∧
      (∀ x ∈ l, ∃ i : Nat, i < s.index.vectors.length ∧
        x.1 = Int.ofNat i ∧
        s.document_map.lookup i = some x.2.1 ∧
        x.2.2 = sqL2 q (s.index.vectors.getD i [])) ∧
      (s.document_map.length = 0 → l = []) := by
  set n := s.index.vectors.length with hn
  set pairs := (List.range n).map
    (fun i => (Int.ofNat i, sqL2 q (s.index.vectors.getD i []))) with hpairs
  set sorted := List.insertionSort distIdLe pairs with hsorted
  set xs := sorted.take k with hxs
  have hmem_pairs : ∀ p ∈ pairs, ∃ i : Nat, i < n ∧
      p = (Int.ofNat i, sqL2 q (s.index.vectors.getD i [])) := by
    intro p hp
    obtain ⟨i, hi, rfl⟩ := List.mem_map.mp hp
    exact ⟨i, List.mem_range.mp hi, rfl⟩
  have hmem_xs : ∀ p ∈ xs, p ∈ pairs := by
    intro p hp
    exact (List.mem_insertionSort distIdLe).mp (List.mem_of_mem_take hp)
  have hshape : ∀ p ∈ xs, ∃ i : Nat, p.1 = Int.ofNat i ∧
      ∃ t, s.document_map.lookup i = some t := by
    intro p hp
    obtain ⟨i, hi, rfl⟩ := hmem_pairs p (hmem_xs p hp)
    exact ⟨i, rfl, Option.isSome_iff_exists.mp (hmap i hi)⟩
  obtain ⟨l, hcol, hproj, hlook⟩ := collectResults_ok s.document_map xs hshape
  have hsearch : s.index.search q k =
      xs ++ List.replicate (k - n) ((-1 : Int), 0) := rfl
  have hmain : s.similarity_search q k =
      FAISSStore.collectResults s.document_map xs := by
    unfold FAISSStore.similarity_search
    rw [if_neg (fun hne => hne hq), hsearch, collectResults_append_pad]
  have hlen : l.length = min k s.document_map.length := by
    have h1 : l.length = xs.length := by
      simpa using congrArg List.length hproj
    rw [h1, hxs, List.length_take, hsorted, List.length_insertionSort,
      hpairs, List.length_map, List.length_range]
    exact congrArg (fun m => k ⊓ m) hcount
  refine ⟨l, hmain.trans hcol, hlen, ?_, ?_, ?_⟩
  · have hsortedxs : List.Pairwise distIdLe xs :=
      List.Pairwise.sublist (List.take_sublist k sorted)
        (List.sorted_insertionSort distIdLe pairs)
    rw [← hproj] at hsortedxs
    exact List.pairwise_map.mp hsortedxs
  · intro x hx
    have hpx : (x.1, x.2.2) ∈ xs := by
      rw [← hproj]
      exact List.mem_map_of_mem _ hx
    obtain ⟨i, hi, heq⟩ := hmem_pairs _ (hmem_xs _ hpx)
    have h1 : x.1 = Int.ofNat i := congrArg Prod.fst heq
    have h2 : x.2.2 = sqL2 q (s.index.vectors.getD i []) :=
      congrArg Prod.snd heq
    have h3 := hlook x hx
    rw [h1] at h3
    exact ⟨i, hi, h1, by simpa using h3, h2⟩
  · intro h0
    have : l.length = 0 := by rw [hlen, h0]; simp
    exact List.eq_nil_of_length_eq_zero this

/-- Witness for C3 at a concrete three-document store with query
`[1, 0]` and `k = 5`. -/
theorem similarity_search_exact_sorted_witness :
    (([(1 : ℚ), 0] : List ℚ).length = exStore.index.d ∧
      exStore.index.vectors.length = exStore.document_map.length ∧
      ∀ i, i < exStore.index.vectors.length →
        (exStore.document_map.lookup i).isSome = true) ∧
    ∃ l, exStore.similarity_search [1, 0] 5 = .ok l ∧
      l.length = min 5 exStore.document_map.length ∧
      List.Pairwise
        (fun a b : Int × String × ℚ =>
          a.2.2 < b.2.2 ∨ (a.2.2 = b.2.2 ∧ a.1 ≤ b.1)) l ∧
      (∀ x ∈ l, ∃ i : Nat, i < exStore.index.vectors.length ∧
        x.1 = Int.ofNat i ∧
        exStore.document_map.lookup i = some x.2.1 ∧
        x.2.2 = sqL2 [1, 0] (exStore.index.vectors.getD i [])) ∧
      (exStore.document_map.length = 0 → l = []) :=
  ⟨⟨by decide, by decide, by decide⟩,
    similarity_search_exact_sorted exStore [1, 0] 5 (by decide) (by decide)
      (by decide)⟩

/-- C10: every successfully loaded store keeps the constructor-default
dimension 1536, while its index keeps the dimension read from disk, so
the two can disagree. -/
theorem load_keeps_default_dimension :
    (∀ snap : FAISSStore.Snapshot,
      (FAISSStore.load snap).dimension = 1536 ∧
        (FAISSStore.load snap).index.d = snap.index.d) ∧
    ∃ snap : FAISSStore.Snapshot,
      (FAISSStore.load snap).dimension ≠ (FAISSStore.load snap).index.d :=
  ⟨fun _ => ⟨rfl, rfl⟩, ⟨⟨⟨3, []⟩, [], 0⟩, by decide⟩⟩

/-- C4: for every backend failure — network error, timeout, HTTP error
status, or a response missing the `response` field — `generate_answer`
returns normally (`.ok`) with a descriptive error string as the answer
value ("Error connecting to Ollama: …" for request failures, "Error:
Invalid response from Ollama" for a missing field), and indeed every
outcome produces a normal return: no exception propagates. -/
theorem generate_answer_degrades_to_error_string
    (humanize : String → String) (query context m : String)
    (json : List (String × String)) :
    (RAGPipeline.generate_answer humanize query context (.networkError m) =
      .ok ("Error connecting to Ollama: " ++ m)) ∧
    (RAGPipeline.generate_answer humanize query context (.timeout m) =
      .ok ("Error connecting to Ollama: " ++ m)) ∧
    (RAGPipeline.generate_answer humanize query context (.httpStatusError m) =
      .ok ("Error connecting to Ollama: " ++ m)) ∧
    (json.lookup "response" = none →
      RAGPipeline.generate_answer humanize query context (.success json) =
        .ok "Error: Invalid response from Ollama") ∧
    ∀ outcome, ∃ answer,
      RAGPipeline.generate_answer humanize query context outcome =
        .ok answer := by
  refine ⟨rfl, rfl, rfl, ?_, ?_⟩
  · intro h
    simp [RAGPipeline.generate_answer, RAGPipeline.generate_answer_body, h]
  · intro outcome
    cases outcome with
    | networkError m' => exact ⟨_, rfl⟩
    | timeout m' => exact ⟨_, rfl⟩
    | httpStatusError m' => exact ⟨_, rfl⟩
    | success js =>
        cases hjs : js.lookup "response" with
        | none =>
            exact ⟨"Error: Invalid response from Ollama", by
              simp [RAGPipeline.generate_answer,
                RAGPipeline.generate_answer_body, hjs]⟩
        | some raw =>
            exact ⟨humanize raw, by
              simp [RAGPipeline.generate_answer,
                RAGPipeline.generate_answer_body, hjs]⟩

/-- Witness for C4 at a concrete malformed (field-missing) response. -/
theorem generate_answer_degrades_witness :
    RAGPipeline.generate_answer id "q" "ctx"
        (.success [("model", "llama3")]) =
      .ok "Error: Invalid response from Ollama" :=
  (generate_answer_degrades_to_error_string id "q" "ctx" "boom"
    [("model", "llama3")]).2.2.2.1 rfl

/-- C5: for every requirement and every empty or whitespace-only
response, `score_response` returns the all-zero `QualityScore` with
status "Poor" and feedback `["Response is empty or missing"]`, without
raising. -/
theorem score_response_empty_is_zero (requirement response : String)
    (h : response = "" ∨ pyStrip response = "") :
    RFPQualityScorer.score_response requirement response =
      { overall_score := 0, completeness := 0, clarity := 0,
        professionalism := 0, relevance := 0,
        feedback := ["Response is empty or missing"], status := "Poor" } := by
  unfold RFPQualityScorer.score_response
  rw [if_pos h]

/-- Witness for C5 on a whitespace-only response. -/
theorem score_response_empty_is_zero_witness :
    RFPQualityScorer.score_response "What is your SLA?" "  " =
      { overall_score := 0, completeness := 0, clarity := 0,
        professionalism := 0, relevance := 0,
        feedback := ["Response is empty or missing"], status := "Poor" } :=
  score_response_empty_is_zero "What is your SLA?" "  "
    (Or.inr (by decide))

/-- C6 (amended): for every requirement and non-empty response, the
returned `overall_score` equals the weighted sum
`0.30·completeness + 0.25·clarity + 0.25·professionalism +
0.20·relevance` of the four (unrounded) sub-scores, rounded to one
decimal place. -/
theorem overall_score_weighted_sum_rounded (requirement response : String)
    (h : ¬(response = "" ∨ pyStrip response = "")) :
    (RFPQualityScorer.score_response requirement response).overall_score =
      round1 (RFPQualityScorer.score_completeness requirement response * (3 / 10)
        + RFPQualityScorer.score_clarity response * (1 / 4)
        + RFPQualityScorer.score_professionalism response * (1 / 4)
        + RFPQualityScorer.score_relevance requirement response * (1 / 5)) := by
  unfold RFPQualityScorer.score_response
  rw [if_neg h]

/-- Witness for C6 at a concrete (requirement, response) pair. -/
theorem overall_score_weighted_sum_rounded_witness :
    (RFPQualityScorer.score_response "What?" "A b c d e f g h i j").overall_score =
      round1 (RFPQualityScorer.score_completeness "What?" "A b c d e f g h i j" * (3 / 10)
        + RFPQualityScorer.score_clarity "A b c d e f g h i j" * (1 / 4)
        + RFPQualityScorer.score_professionalism "A b c d e f g h i j" * (1 / 4)
        + RFPQualityScorer.score_relevance "What?" "A b c d e f g h i j" * (1 / 5)) :=
  overall_score_weighted_sum_rounded "What?" "A b c d e f g h i j"
    (by decide)

/-- Counterexample to C6 as stated: at requirement "What?" and response
"A b c d e f g h i j" the sub-scores are (30, 80, 75, 50), whose
weighted sum is 57.75, but the returned `overall_score` is the rounded
57.8 — the exact equality of the claim fails. -/
theorem overall_score_weighted_sum_counterexample :
    (RFPQualityScorer.score_response "What?" "A b c d e f g h i j").overall_score ≠
      (RFPQualityScorer.score_response "What?" "A b c d e f g h i j").completeness * (3 / 10)
      + (RFPQualityScorer.score_response "What?" "A b c d e f g h i j").clarity * (1 / 4)
      + (RFPQualityScorer.score_response "What?" "A b c d e f g h i j").professionalism * (1 / 4)
      + (RFPQualityScorer.score_response "What?" "A b c d e f g h i j").relevance * (1 / 5) := by
  decide

/-- C7: batch processing returns exactly one result per input query, in
input order, each tagged "success" or "error"; the entry at position `i`
is determined by `ask` on the `i`-th query alone, so a failure on one
query does not abort the processing of the others. -/
theorem process_requirements_batch_per_query
    (ask : String → Except PyError RAGPipeline.AskResult)
    (requirements : List String) :
    (RAGPipeline.process_requirements_batch ask requirements).length =
      requirements.length ∧
    ∀ (i : Nat) (r : String), requirements[i]? = some r →
      ∃ item : RAGPipeline.BatchItem,
        (RAGPipeline.process_requirements_batch ask requirements)[i]? =
          some item ∧
        item.requirement = r ∧
        (item.status = "success" ∨ item.status = "error") ∧
        (∀ res, ask r = .ok res →
          item = ⟨r, res.answer, "success"⟩) ∧
        (∀ e, ask r = .error e →
          item = ⟨r, "Error processing requirement: " ++ e.msg, "error"⟩) := by
  constructor
  · exact List.length_map _ _
  · intro i r hr
    have hbatch : (RAGPipeline.process_requirements_batch ask requirements)[i]? =
        some (match ask r with
          | .ok res => ⟨r, res.answer, "success"⟩
          | .error e =>
              ⟨r, "Error processing requirement: " ++ e.msg, "error"⟩) := by
      rw [RAGPipeline.process_requirements_batch, List.getElem?_map, hr,
        Option.map_some']
    cases hask : ask r with
    | ok res =>
        rw [hask] at hbatch
        refine ⟨_, hbatch, rfl, Or.inl rfl, ?_, ?_⟩
        · intro res' h
          cases h
          rfl
        · intro e h
          cases h
    | error e =>
        rw [hask] at hbatch
        refine ⟨_, hbatch, rfl, Or.inr rfl, ?_, ?_⟩
        · intro res' h
          cases h
        · intro e' h
          cases h
          rfl

/-- Witness for C7: a three-query batch whose middle query fails still
yields three ordered results, the failing one tagged "error" and the
following one tagged "success". -/
theorem process_requirements_batch_per_query_witness :
    (RAGPipeline.process_requirements_batch askEx ["a", "b", "c"]).length = 3 ∧
    (RAGPipeline.process_requirements_batch askEx ["a", "b", "c"])[1]? =
      some ⟨"b", "Error processing requirement: down", "error"⟩ ∧
    (RAGPipeline.process_requirements_batch askEx ["a", "b", "c"])[2]? =
      some ⟨"c", "fine", "success"⟩ := by
  obtain ⟨hlen, h⟩ := process_requirements_batch_per_query askEx ["a", "b", "c"]
  obtain ⟨item1, hi1, _, _, _, herr⟩ := h 1 "b" rfl
  obtain ⟨item2, hi2, _, _, hok, _⟩ := h 2 "c" rfl
  refine ⟨hlen, ?_, ?_⟩
  · rw [hi1, herr (.requestException "down") rfl]
    rfl
  · rw [hi2, hok ⟨"fine"⟩ rfl]

/-- C9 (amended): for every non-empty response, the clarity sub-score
starts from a base of 70 and each of the three sequential /
logical-connector / clarifying pattern groups contributes 5 points per
occurrence capped at 15 points per group — so the combined bonus can
reach 45, not 15 — before the filler/vagueness penalties, the
sentence-length adjustment, the bullet bonus and the clamp to
[0, 100]. -/
theorem clarity_bonus_capped_per_group (response : String)
    (h : ¬(response = "" ∨ pyStrip response = "")) :
    RFPQualityScorer.score_clarity response =
      max (min (70
        + min ((countWordAlts ["first", "second", "third", "finally"]
            (pyLower response) : ℚ) * 5) 15
        + min ((countWordAlts ["however", "therefore", "furthermore",
            "additionally"] (pyLower response) : ℚ) * 5) 15
        + min ((countWordAlts ["specifically", "for example", "such as"]
            (pyLower response) : ℚ) * 5) 15
        - (countWordAlts ["uh", "um", "er"] (pyLower response) : ℚ) * 10
        - (countDotRuns (pyLower response) : ℚ) * 10
        - (countWordAlts ["thing", "stuff", "whatever"]
            (pyLower response) : ℚ) * 10
        + RFPQualityScorer.sentenceLengthAdj response
        + (if bulletSearch response then (10 : ℚ) else 0)) 100) 0 := by
  unfold RFPQualityScorer.score_clarity
  cases hb : bulletSearch response <;>
    simp only [RFPQualityScorer.clarity_good_patterns, List.foldl_cons,
      List.foldl_nil, hb, Bool.false_eq_true, if_true, if_false,
      ite_true, ite_false] <;>
    · congr 1
      congr 1
      ring

/-- Witness for C9 at a concrete non-empty response. -/
theorem clarity_bonus_capped_per_group_witness :
    RFPQualityScorer.score_clarity
        "first second third however therefore furthermore" =
      max (min (70
        + min ((countWordAlts ["first", "second", "third", "finally"]
            (pyLower "first second third however therefore furthermore") : ℚ)
            * 5) 15
        + min ((countWordAlts ["however", "therefore", "furthermore",
            "additionally"]
            (pyLower "first second third however therefore furthermore") : ℚ)
            * 5) 15
        + min ((countWordAlts ["specifically", "for example", "such as"]
            (pyLower "first second third however therefore furthermore") : ℚ)
            * 5) 15
        - (countWordAlts ["uh", "um", "er"]
            (pyLower "first second third however therefore furthermore") : ℚ)
            * 10
        - (countDotRuns
            (pyLower "first second third however therefore furthermore") : ℚ)
            * 10
        - (countWordAlts ["thing", "stuff", "whatever"]
            (pyLower "first second third however therefore furthermore") : ℚ)
            * 10
        + RFPQualityScorer.sentenceLengthAdj
            "first second third however therefore furthermore"
        + (if bulletSearch "first second third however therefore furthermore"
            then (10 : ℚ) else 0)) 100) 0 :=
  clarity_bonus_capped_per_group
    "first second third however therefore furthermore" (by decide)

/-- Counterexample to C9 as stated: on a response containing three
sequential indicators and three logical connectors, the code awards a
+30 bonus (each group capped separately at 15), yielding clarity 100,
whereas a 15-point total cap across the patterns would yield 85. -/
theorem clarity_total_cap_counterexample :
    RFPQualityScorer.score_clarity
        "first second third however therefore furthermore" = 100 ∧
    clarityTotalCap15
        "first second third however therefore furthermore" = 85 ∧
    RFPQualityScorer.score_clarity
        "first second third however therefore furthermore" ≠
      clarityTotalCap15
        "first second third however therefore furthermore" :=
  ⟨by decide, by decide, by decide⟩
